import Mathlib

/-!
Verification of the runtime-variable lifecycle and expiry engine of the
stated integration (custom_components/stated). The definitions below are a
shallow embedding of src/custom_components/stated/__init__.py and const.py:
Python values are modelled by the closed type PyVal, the scheduler of
one-shot callbacks by an explicit pending list with cancellation tokens,
the storage collection data by an association list from ids to configs,
and every entity method by a pure function returning the updated state
together with the list of emitted change events.
-/

/-- A Python runtime value as it can appear in a variable's config or value
field: the schema admits str, int, float, bool and None. Floats are
modelled as rationals; no claim depends on binary rounding. -/
inductive PyVal where
  | none
  | bool (b : Bool)
  | int (n : Int)
  | float (q : Rat)
  | str (s : String)
deriving DecidableEq, Repr

/-- Python truthiness, bool(x), for the values PyVal can hold. -/
def pyTruthy : PyVal → Bool
  | .none => false
  | .bool b => b
  | .int n => n != 0
  | .float q => q != 0
  | .str s => s != ""

/-- Python str(x). The float case is rendered canonically; no claim
depends on the concrete text of a float. -/
def pyStr : PyVal → String
  | .none => "None"
  | .bool b => if b then "True" else "False"
  | .int n => toString n
  | .float q => toString q
  | .str s => s

/-- Python str.lower for the ASCII range used by the coercion table. -/
def pyLower (s : String) : String :=
  String.mk (s.data.map Char.toLower)

/-- Accumulate one decimal digit. -/
def digAcc (a : Nat) (c : Char) : Nat := a * 10 + (c.toNat - 48)

/-- Value of a non-empty all-digit character list. -/
def digitsVal : List Char → Option Nat
  | [] => Option.none
  | cs => if cs.all Char.isDigit then some (cs.foldl digAcc 0) else Option.none

/-- Strip leading and trailing spaces, as Python int()/float() do. -/
def stripSpaces (cs : List Char) : List Char :=
  ((cs.dropWhile (fun c => c == ' ')).reverse.dropWhile (fun c => c == ' ')).reverse

/-- Python int(s) on a string: optional sign, decimal digits.
(Underscore separators are not modelled; no claim uses them.) -/
def pyIntOfString (s : String) : Option Int :=
  match stripSpaces s.data with
  | '+' :: rest => (digitsVal rest).map (fun n => (n : Int))
  | '-' :: rest => (digitsVal rest).map (fun n => -(n : Int))
  | cs => (digitsVal cs).map (fun n => (n : Int))

/-- Decimal body of Python float(s): digits with at most one point, at
least one digit overall. (Exponent, inf and nan forms are not modelled;
no claim depends on them.) -/
def pyFloatCore (cs : List Char) : Option Rat :=
  let intPart := cs.takeWhile (fun c => c != '.')
  let rest := cs.dropWhile (fun c => c != '.')
  match rest with
  | [] =>
      if intPart ≠ [] ∧ intPart.all Char.isDigit then
        some ((intPart.foldl digAcc 0 : Nat) : Rat)
      else Option.none
  | _ :: fracPart =>
      if fracPart.contains '.' then Option.none
      else if intPart = [] ∧ fracPart = [] then Option.none
      else if intPart.all Char.isDigit ∧ fracPart.all Char.isDigit then
        some (((intPart.foldl digAcc 0 : Nat) : Rat)
          + ((fracPart.foldl digAcc 0 : Nat) : Rat) / ((10 : Rat) ^ fracPart.length))
      else Option.none

/-- Python float(s) on a string: optional sign around a decimal body. -/
def pyFloatOfString (s : String) : Option Rat :=
  match stripSpaces s.data with
  | '+' :: rest => pyFloatCore rest
  | '-' :: rest => (pyFloatCore rest).map (fun q => -q)
  | cs => pyFloatCore cs

/-! Constants from const.py. -/

def TYPE_BOOLEAN : String := "boolean"

def TYPE_NUMBER : String := "number"

def TYPE_STRING : String := "string"

def DEFAULT_TYPE : String := TYPE_STRING

def EXPIRE_ACTION_RESET : String := "reset"

def EXPIRE_ACTION_DELETE : String := "delete"

def DEFAULT_EXPIRE_ACTION : String := EXPIRE_ACTION_RESET

def STATE_ON : String := "on"

def STATE_OFF : String := "off"

/-- Coercion of a string under TYPE_NUMBER, from Variable._coerce:
try: if "." in value: return float(value); return int(value)
except: try: return float(value) except: return 0.
For a string with a point the retry calls float() on the same string
again, so the net effect is float-or-0; without a point it is
int-else-float-else-0. -/
def coerceNumberStr (s : String) : PyVal :=
  if s.data.contains '.' then
    match pyFloatOfString s with
    | some q => .float q
    | Option.none => .int 0
  else
    match pyIntOfString s with
    | some n => .int n
    | Option.none =>
        match pyFloatOfString s with
        | some q => .float q
        | Option.none => .int 0

/-- Variable._coerce(value): coerce a raw value to the variable's type.
The boolean branch tests isinstance(value, bool) first, then strings by
membership in the on-word table, then Python truthiness. The number
branch tests isinstance(value, (int, float)), which a Python bool also
satisfies (bool is a subclass of int), so a raw bool passes through
unchanged. Any type tag other than boolean/number falls to the string
branch, which renders via str(). -/
def coerce (varType : String) (value : PyVal) : PyVal :=
  if value = .none then .none
  else if varType = TYPE_BOOLEAN then
    match value with
    | .bool b => .bool b
    | .str s => .bool (["on", "true", "1", "yes"].contains (pyLower s))
    | .none => .bool (pyTruthy PyVal.none)
    | .int n => .bool (pyTruthy (PyVal.int n))
    | .float q => .bool (pyTruthy (PyVal.float q))
  else if varType = TYPE_NUMBER then
    match value with
    | .bool b => .bool b
    | .int n => .int n
    | .float q => .float q
    | .str s => coerceNumberStr s
    | .none => .none
  else
    if value = .none then .str "" else .str (pyStr value)

/-! Data model: configs, attribute dicts, events, scheduler, store. -/

/-- A stored/supplied variable config, one optional slot per dict key of
STORAGE_FIELDS plus the collection-assigned id. Option.none models the
key being absent from the dict; some PyVal.none models a key present and
bound to Python None. -/
structure VarConfig where
  id : Option String
  name : Option String
  value : Option PyVal
  var_type : Option String
  icon : Option String
  attributes : Option (List (String × PyVal))
deriving DecidableEq, Repr

/-- Python dict insertion-ordered association lists for attributes. -/
abbrev AttrMap := List (String × PyVal)

/-- d[k] = val on a Python dict: overwrite in place or append. -/
def dictSet (m : AttrMap) (k : String) (val : PyVal) : AttrMap :=
  if m.any (fun p => p.1 == k) then
    m.map (fun p => if p.1 == k then (p.1, val) else p)
  else m ++ [(k, val)]

/-- d.update(other) on a Python dict. -/
def dictUpdate (m upd : AttrMap) : AttrMap :=
  upd.foldl (fun acc p => dictSet acc p.1 p.2) m

/-- Payload of a stated.value_changed event fired on the bus. The
host-assigned entity_id is modelled by the stored unique id. -/
structure ChangeEvent where
  entity_uid : Option String
  name : Option String
  var_type : String
  old_value : Option String
  new_value : Option String
deriving DecidableEq, Repr

/-- The external scheduler behind async_track_point_in_time: one-shot
timers registered as (cancellation token, absolute fire time); a fresh
token per registration. -/
structure Sched where
  pending : List (Nat × Nat)
  nextId : Nat
deriving DecidableEq, Repr

/-- Invoke the unsubscribe handle of a timer: remove it from the pending
set. -/
def Sched.unsub (s : Sched) (tok : Nat) : Sched :=
  { pending := s.pending.filter (fun p => p.1 != tok), nextId := s.nextId }

/-- async_track_point_in_time: register a one-shot timer at absolute time
t, returning its cancellation token. -/
def Sched.track (s : Sched) (t : Nat) : Nat × Sched :=
  (s.nextId, { pending := s.pending ++ [(s.nextId, t)], nextId := s.nextId + 1 })

/-- The storage collection's data: an id-keyed mapping of stored configs
(insertion-ordered, unique keys maintained by the host collection). -/
abbrev Store := List (String × VarConfig)

/-- DictStorageCollection.async_delete_item: drop the entry for item_id. -/
def store_delete_item (store : Store) (item_id : String) : Store :=
  store.filter (fun p => p.1 != item_id)

/-! The Variable entity, from class Variable in __init__.py. -/

/-- Mutable state of a Variable entity: the stored config plus the fields
set in __init__ and driven by the TTL state machine. _ttl_unsub holds
the scheduler cancellation token while a TTL is armed. -/
structure Variable where
  config : VarConfig
  var_type : String
  value : PyVal
  attributes : AttrMap
  ttl_unsub : Option Nat
  expires_at : Option Nat
  expire_to : PyVal
  expire_action : String
deriving DecidableEq, Repr

/-- Variable.__init__(config). -/
def Variable.init (config : VarConfig) : Variable :=
  let vt := config.var_type.getD DEFAULT_TYPE
  { config := config
    var_type := vt
    value := coerce vt (config.value.getD (.str ""))
    attributes := config.attributes.getD []
    ttl_unsub := Option.none
    expires_at := Option.none
    expire_to := .none
    expire_action := DEFAULT_EXPIRE_ACTION }

/-- Variable.from_storage(config): classmethod delegating to __init__. -/
def Variable.from_storage (config : VarConfig) : Variable :=
  Variable.init config

/-- Variable.unique_id. -/
def Variable.unique_id (v : Variable) : Option String :=
  v.config.id

/-- Variable.state property: boolean variables render on/off by
truthiness, None renders as an absent state, anything else via str(). -/
def Variable.state (v : Variable) : Option String :=
  if v.var_type = TYPE_BOOLEAN then
    some (if pyTruthy v.value then STATE_ON else STATE_OFF)
  else
    match v.value with
    | .none => Option.none
    | w => some (pyStr w)

/-- Variable._format_state(value): same rendering applied to an arbitrary
value. -/
def Variable.format_state (v : Variable) (value : PyVal) : Option String :=
  if v.var_type = TYPE_BOOLEAN then
    some (if pyTruthy value then STATE_ON else STATE_OFF)
  else
    match value with
    | .none => Option.none
    | w => some (pyStr w)

/-- Variable._get_default_expire_value. -/
def Variable.default_expire_value (v : Variable) : PyVal :=
  if v.var_type = TYPE_BOOLEAN then .bool false
  else if v.var_type = TYPE_NUMBER then .int 0
  else .str ""

/-- Variable._fire_value_changed(old, new): the events put on the bus —
empty when the formatted states coincide, a single stated.value_changed
event otherwise. -/
def Variable.fire_value_changed (v : Variable) (old_value new_value : PyVal) :
    List ChangeEvent :=
  let old_state := v.format_state old_value
  let new_state := v.format_state new_value
  if old_state = new_state then []
  else
    [{ entity_uid := v.config.id
       name := v.config.name
       var_type := v.var_type
       old_value := old_state
       new_value := new_state }]

/-- Variable.apply_ttl(ttl, expire_to, expire_action): cancel any armed
TTL, resolve the expire-to value (coerced when given, the type default
otherwise), then schedule the one-shot expiry callback at now + ttl and
retain its cancellation token. -/
def Variable.apply_ttl (v : Variable) (s : Sched) (ttl : Nat) (eto : PyVal)
    (ea : String) (now : Nat) : Variable × Sched :=
  let s1 :=
    match v.ttl_unsub with
    | some tok => s.unsub tok
    | Option.none => s
  let resolved := if eto ≠ PyVal.none then coerce v.var_type eto
                  else v.default_expire_value
  let expire_at := now + ttl
  let reg := s1.track expire_at
  ({ v with
      expire_action := ea
      expire_to := resolved
      expires_at := some expire_at
      ttl_unsub := some reg.1 },
   reg.2)

/-- Variable._cancel_ttl. -/
def Variable.cancel_ttl (v : Variable) (s : Sched) : Variable × Sched :=
  match v.ttl_unsub with
  | some tok =>
      ({ v with
          ttl_unsub := Option.none
          expires_at := Option.none
          expire_to := .none
          expire_action := DEFAULT_EXPIRE_ACTION },
       s.unsub tok)
  | Option.none => (v, s)

/-- Variable._ttl_expired(now): the expiry callback. Clears the handle and
expiry record, then either requests self-deletion from the owning store
(delete action; the membership guard mirrors `if uid and uid in sc.data`)
or resets the value to the captured expire-to value and fires a change
event if the display state changed. Returns the updated variable, the
updated store data and the emitted events. -/
def Variable.ttl_expired (v : Variable) (store : Store) :
    Variable × Store × List ChangeEvent :=
  let v1 := { v with ttl_unsub := Option.none, expires_at := Option.none }
  if v1.expire_action = EXPIRE_ACTION_DELETE then
    let v2 := { v1 with expire_to := .none,
                        expire_action := DEFAULT_EXPIRE_ACTION }
    match v2.config.id with
    | some uid =>
        if store.any (fun p => p.1 == uid) then
          (v2, store_delete_item store uid, [])
        else (v2, store, [])
    | Option.none => (v2, store, [])
  else
    let old_value := v1.value
    let new_value := if v1.expire_to ≠ PyVal.none then v1.expire_to
                     else v1.default_expire_value
    let v2 := { v1 with value := new_value, expire_to := .none,
                        expire_action := DEFAULT_EXPIRE_ACTION }
    (v2, store, v2.fire_value_changed old_value new_value)

/-- The scheduler firing an armed timer: the one-shot registration is
consumed, then Variable._ttl_expired runs. A variable with no armed
handle has nothing to fire. -/
def fireTtl (v : Variable) (s : Sched) (store : Store) :
    Variable × Sched × Store × List ChangeEvent :=
  match v.ttl_unsub with
  | some tok =>
      let s1 := s.unsub tok
      let r := v.ttl_expired store
      (r.1, s1, r.2.1, r.2.2)
  | Option.none => (v, s, store, [])

/-- Variable.async_set_value(value, ttl, expire_to, expire_action,
attributes): coerce the new value, merge attributes if given, fire a
change event on a display-state delta, then arm the TTL when given or
cancel any armed one otherwise. -/
def Variable.set_value (v : Variable) (s : Sched) (value : PyVal)
    (ttl : Option Nat) (eto : PyVal) (ea : String)
    (attributes : Option AttrMap) (now : Nat) :
    Variable × Sched × List ChangeEvent :=
  let old_value := v.value
  let v1 := { v with value := coerce v.var_type value }
  let v2 :=
    match attributes with
    | some attrs => { v1 with attributes := dictUpdate v1.attributes attrs }
    | Option.none => v1
  let evs := v2.fire_value_changed old_value v2.value
  match ttl with
  | some t =>
      let r := v2.apply_ttl s t eto ea now
      (r.1, r.2, evs)
  | Option.none =>
      let r := v2.cancel_ttl s
      (r.1, r.2, evs)

/-- Variable.async_toggle: a warning-logged no-op on a non-boolean
variable; otherwise the value becomes `not value` and a change event is
fired on the display-state delta. -/
def Variable.toggle (v : Variable) : Variable × List ChangeEvent :=
  if v.var_type ≠ TYPE_BOOLEAN then (v, [])
  else
    let old_value := v.value
    let v1 := { v with value := PyVal.bool (!(pyTruthy v.value)) }
    (v1, v1.fire_value_changed old_value v1.value)

/-- Variable.async_update_config(config): adopt the new config wholesale,
re-coerce the raw value under the new type, replace the attributes dict
when the new config carries one, and fire a change event on a
display-state delta. -/
def Variable.update_config (v : Variable) (config : VarConfig) :
    Variable × List ChangeEvent :=
  let old_value := v.value
  let vt := config.var_type.getD DEFAULT_TYPE
  let v1 := { v with
      config := config
      var_type := vt
      value := coerce vt (config.value.getD (.str "")) }
  let v2 :=
    match config.attributes with
    | some attrs => { v1 with attributes := attrs }
    | Option.none => v1
  (v2, v2.fire_value_changed old_value v2.value)

/-- Variable.async_added_to_hass: intentionally performs no state
restoration beyond what __init__ already loaded from the storage
collection (the recorder-based RestoreEntity path is deliberately
skipped), so it leaves the reconstructed variable untouched. -/
def Variable.added_to_hass (v : Variable) : Variable := v

/-- Variable.async_will_remove_from_hass: teardown cancels any armed
TTL. -/
def Variable.will_remove_from_hass (v : Variable) (s : Sched) :
    Variable × Sched :=
  v.cancel_ttl s

/-! Service and storage-collection layer. -/

/-- Collapse every run of underscores to a single underscore. -/
def collapseSep : List Char → List Char
  | [] => []
  | c :: cs =>
      match collapseSep cs with
      | [] => [c]
      | d :: ds => if c = '_' ∧ d = '_' then d :: ds else c :: d :: ds

/-- Modelled from the spec: homeassistant.util.slugify is an external
collaborator not present under src/; the spec defines the suggestId-style
normalization as lowercase with every maximal run of characters outside
[a-z0-9] collapsed to a single underscore and leading/trailing separators
stripped. -/
def slugify (s : String) : String :=
  let lowered := s.data.map Char.toLower
  let mapped := lowered.map (fun c => if c.isLower || c.isDigit then c else '_')
  let collapsed := collapseSep mapped
  let stripped :=
    ((collapsed.dropWhile (fun c => c = '_')).reverse.dropWhile
      (fun c => c = '_')).reverse
  String.mk stripped

/-- Python str.startswith for ids. -/
def strStartsWith (pfx s : String) : Bool :=
  pfx.data.isPrefixOf s.data

/-- async_handle_delete_prefix(call): slugify the prefix, reject an empty
slug without touching the store (result Option.none), otherwise snapshot
the matching ids, delete them one by one, and report the deleted count
that the final log line carries (0 on the early zero-match return). -/
def async_handle_delete_prefix (store : Store) (raw : String) :
    Store × Option Nat :=
  let pfx := slugify raw
  if pfx = "" then (store, Option.none)
  else
    let to_delete :=
      (store.map (fun p => p.1)).filter (fun i => strStartsWith pfx i)
    if to_delete = [] then (store, some 0)
    else
      (to_delete.foldl (fun acc i => store_delete_item acc i) store,
       some to_delete.length)

/-- cv.icon of the host's config validation: an icon string must contain
a colon. -/
def cvIcon (s : String) : Bool := s.data.contains ':'

/-- VariableStorageCollection.CREATE_UPDATE_SCHEMA applied to a supplied
dict by voluptuous: name is required (a non-empty string), unknown keys
such as id are rejected, var_type must be one of the three type tags when
present, icon is validated when present, and—crucially—each vol.Optional
with a default inserts that default into the validated dict when the key
is absent: value defaults to "", var_type to string, attributes to {}. -/
def create_update_schema (d : VarConfig) : Option VarConfig :=
  match d.name with
  | Option.none => Option.none
  | some n =>
      if n.length = 0 then Option.none
      else if d.id.isSome then Option.none
      else if !([TYPE_BOOLEAN, TYPE_NUMBER, TYPE_STRING].contains
                  (d.var_type.getD DEFAULT_TYPE)) then Option.none
      else if (match d.icon with
               | some i => !(cvIcon i)
               | Option.none => false) then Option.none
      else
        some { id := Option.none
               name := some n
               value := some (d.value.getD (.str ""))
               var_type := some (d.var_type.getD DEFAULT_TYPE)
               icon := d.icon
               attributes := some (d.attributes.getD []) }

/-- Python's double-splat merge of two config dicts: keys present in upd
win, keys absent in upd keep item's binding. -/
def mergeConfig (item upd : VarConfig) : VarConfig :=
  { id := upd.id.orElse (fun _ => item.id)
    name := upd.name.orElse (fun _ => item.name)
    value := upd.value.orElse (fun _ => item.value)
    var_type := upd.var_type.orElse (fun _ => item.var_type)
    icon := upd.icon.orElse (fun _ => item.icon)
    attributes := upd.attributes.orElse (fun _ => item.attributes) }

/-- VariableStorageCollection._update_data(item, update_data): validate
the update through CREATE_UPDATE_SCHEMA, then return the stored item with
the validated dict splatted over it. -/
def update_data (item upd : VarConfig) : Option VarConfig :=
  (create_update_schema upd).map (fun validated => mergeConfig item validated)

/-! Spec-side reference definitions and invariants. -/

/-- The runtime-representation predicate exactly as claim C1 words it: a
Boolean variable's coerced value is a boolean, a Number variable's an int
or a float, a String variable's a string, or the absence-marker for any
type. -/
def claimedTypeRep (t : String) : PyVal → Bool
  | .none => true
  | .bool _ => t == TYPE_BOOLEAN
  | .int _ => t == TYPE_NUMBER
  | .float _ => t == TYPE_NUMBER
  | .str _ => t != TYPE_BOOLEAN && t != TYPE_NUMBER

/-- The representation invariant the code actually maintains: as claimed,
except that under the Number type a raw Python bool also passes through
unchanged (bool being an int subclass satisfies the isinstance check in
_coerce). -/
def actualTypeRep (t : String) : PyVal → Bool
  | .none => true
  | .bool _ => t == TYPE_BOOLEAN || t == TYPE_NUMBER
  | .int _ => t == TYPE_NUMBER
  | .float _ => t == TYPE_NUMBER
  | .str _ => t != TYPE_BOOLEAN && t != TYPE_NUMBER

/-- Modelled from the spec: displayState(value, type) as section 4.1 lists
it, with the branches taken in source order (Boolean first). -/
def displaySpec (t : String) (v : PyVal) : Option String :=
  if t = TYPE_BOOLEAN then
    some (if pyTruthy v then STATE_ON else STATE_OFF)
  else
    match v with
    | .none => Option.none
    | w => some (pyStr w)

/-- The single-armed-TTL state: the scheduler's pending set holds exactly
the one timer whose cancellation token the variable retains, at the
variable's recorded expiry time — and no timer at all when no TTL is
armed. -/
def TtlInv (v : Variable) (s : Sched) : Prop :=
  match v.ttl_unsub with
  | some tok => ∃ t, s.pending = [(tok, t)] ∧ v.expires_at = some t
  | Option.none => s.pending = []

/-! Shared concrete sample data for witnesses and counterexamples. -/

/-- A stored boolean-typed config. -/
def cfgBool : VarConfig :=
  { id := some "flag"
    name := some "Flag"
    value := some (.bool false)
    var_type := some TYPE_BOOLEAN
    icon := Option.none
    attributes := some [] }

/-- A stored string-typed config whose value is the string x. -/
def cfgStr : VarConfig :=
  { id := some "note"
    name := some "Note"
    value := some (.str "x")
    var_type := some TYPE_STRING
    icon := Option.none
    attributes := some [] }

/-- The persisted record of the restart round-trip scenario. -/
def cfgSeven : VarConfig :=
  { id := some "x"
    name := some "x"
    value := some (.str "7")
    var_type := some TYPE_NUMBER
    icon := Option.none
    attributes := some [("a", .int 1)] }

/-- A generic stored config for populating sample stores. -/
def cfgPlain (i : String) : VarConfig :=
  { id := some i
    name := some i
    value := some (.str "")
    var_type := some TYPE_STRING
    icon := Option.none
    attributes := some [] }

/-- The delete_prefix scenario store: kitchen_light, kitchen_fan,
garage_door. -/
def storeKitchen : Store :=
  [("kitchen_light", cfgPlain "kitchen_light"),
   ("kitchen_fan", cfgPlain "kitchen_fan"),
   ("garage_door", cfgPlain "garage_door")]

/-- An empty scheduler. -/
def sched0 : Sched := { pending := [], nextId := 0 }

/-- A stored number-typed config with a non-default value, icon and
attributes, for exercising update merging. -/
def cfgNum5 : VarConfig :=
  { id := some "v1"
    name := some "V"
    value := some (.int 5)
    var_type := some TYPE_NUMBER
    icon := some "mdi:n"
    attributes := some [("a", .int 1)] }
/-- An update dict supplying only the required name key. -/
def updOnlyName : VarConfig :=
  { id := Option.none
    name := some "V"
    value := Option.none
    var_type := Option.none
    icon := Option.none
    attributes := Option.none }
/-- A new config carrying a fresh attributes dict. -/
def cfgAttrB : VarConfig :=
  { id := some "v1"
    name := some "V"
    value := some (.str "x")
    var_type := some TYPE_STRING
    icon := Option.none
    attributes := some [("b", .int 2)] }
/-- The stored record produced by updating cfgNum5 with updOnlyName. -/
def rC : VarConfig :=
  { id := some "v1"
    name := some "V"
    value := some (.str "")
    var_type := some TYPE_STRING
    icon := some "mdi:n"
    attributes := some [] }

theorem coerceNumberStr_rep (s : String) :
    actualTypeRep TYPE_NUMBER (coerceNumberStr s) = true := by
  unfold coerceNumberStr
  by_cases hd : s.data.contains '.'
  · simp only [hd, if_true]
    cases hf : pyFloatOfString s <;> simp [actualTypeRep]
  · simp only [hd, Bool.false_eq_true, if_false]
    cases hi : pyIntOfString s
    · cases hf : pyFloatOfString s <;> simp [actualTypeRep]
    · simp [actualTypeRep]

/-- C1 (amended): for every type tag and raw input, coerce's result
satisfies the runtime-representation invariant the code maintains:
Boolean values are booleans, Number values are ints or floats or a raw
bool passed through unchanged, String values are strings, and the
absence-marker maps to the absence-marker for every type. -/
theorem c1_coerce_type_invariant (t : String) (v : PyVal) :
    actualTypeRep t (coerce t v) = true := by
  by_cases hb : t = TYPE_BOOLEAN
  · subst hb
    cases v <;> simp [coerce, actualTypeRep, TYPE_BOOLEAN, TYPE_NUMBER]
  · by_cases hn : t = TYPE_NUMBER
    · subst hn
      cases v with
      | str s => simpa [coerce, TYPE_NUMBER, TYPE_BOOLEAN] using coerceNumberStr_rep s
      | none => simp [coerce, actualTypeRep]
      | bool b => simp [coerce, actualTypeRep, TYPE_NUMBER, TYPE_BOOLEAN]
      | int n => simp [coerce, actualTypeRep, TYPE_NUMBER, TYPE_BOOLEAN]
      | float q => simp [coerce, actualTypeRep, TYPE_NUMBER, TYPE_BOOLEAN]
    · cases v <;> simp [coerce, actualTypeRep, hb, hn]

theorem pyTruthy_bool (b : Bool) : pyTruthy (PyVal.bool b) = b := rfl

/-- C1 counterexample: coercing the raw Python bool True under the Number
type returns it unchanged (isinstance(True, int) holds in Python), so the
result is neither an int, a float, nor the absence-marker, refuting the
claimed representation invariant at this input. -/
theorem c1_counterexample :
    claimedTypeRep TYPE_NUMBER (coerce TYPE_NUMBER (PyVal.bool true)) = false := by
  decide

/-- C6: a variable reconstructed from the persisted record
{id: x, value: "7", type: number, attributes: {a: 1}} re-coerces the
stored raw value under the stored type to the number 7, keeps the stored
attributes, and has no armed TTL; and in general reconstruction from
storage never arms a TTL and async_added_to_hass layers no second
last-observed-state restoration over the stored config. -/
theorem c6_restart_round_trip :
    ((Variable.from_storage cfgSeven).value = PyVal.int 7 ∧
     (Variable.from_storage cfgSeven).attributes = [("a", PyVal.int 1)] ∧
     (Variable.from_storage cfgSeven).ttl_unsub = Option.none ∧
     (Variable.from_storage cfgSeven).expires_at = Option.none) ∧
    (∀ c : VarConfig,
       (Variable.from_storage c).ttl_unsub = Option.none ∧
       (Variable.from_storage c).expires_at = Option.none ∧
       (Variable.from_storage c).value
         = coerce (c.var_type.getD DEFAULT_TYPE) (c.value.getD (.str "")) ∧
       Variable.added_to_hass (Variable.from_storage c)
         = Variable.from_storage c) := by
  refine ⟨by decide, fun c => ⟨rfl, rfl, rfl, rfl⟩⟩

/-- C9 counterexample: on a Boolean-typed variable the display state of
the absence-marker is the string off, not the absence-marker, because the
boolean branch of _format_state runs before the None check. -/
theorem c9_counterexample :
    (Variable.init cfgBool).format_state PyVal.none = some STATE_OFF ∧
    (Variable.init cfgBool).format_state PyVal.none ≠ Option.none := by
  decide

/-- C9 (amended): for every non-Boolean type the display state of the
absence-marker is the absence-marker; for Boolean the display state of
any value, the absence-marker included, is on/off by Python truthiness;
non-absent values of other types display as their string form; and the
state property agrees with _format_state on the current value. -/
theorem c9_display_state (v : Variable) (val : PyVal) :
    (v.var_type ≠ TYPE_BOOLEAN → v.format_state PyVal.none = Option.none) ∧
    (v.var_type = TYPE_BOOLEAN →
       v.format_state val = some (if pyTruthy val then STATE_ON else STATE_OFF)) ∧
    (v.var_type ≠ TYPE_BOOLEAN → val ≠ PyVal.none →
       v.format_state val = some (pyStr val)) ∧
    v.state = v.format_state v.value := by
  refine ⟨fun h => by simp [Variable.format_state, h], fun h => by simp [Variable.format_state, h], fun h hv => ?_, ?_⟩
  · cases val <;> simp_all [Variable.format_state]
  · simp [Variable.state, Variable.format_state]

/-- C9 witness: the amended display-state theorem evaluated at a
String-typed variable on the absence-marker and at a Boolean-typed
variable on a truthy string. -/
theorem c9_witness :
    (Variable.init cfgStr).format_state PyVal.none = Option.none ∧
    (Variable.init cfgBool).format_state (PyVal.str "x") = some STATE_ON := by
  constructor
  · exact (c9_display_state (Variable.init cfgStr) PyVal.none).1 (by decide)
  · have h := (c9_display_state (Variable.init cfgBool) (PyVal.str "x")).2.1 (by decide)
    rw [h]; decide

/-- C10: toggle on a non-Boolean variable is a benign no-op emitting no
event; toggle on a Boolean variable negates the truthiness of its value,
emits exactly one change event, and always changes the display state. -/
theorem c10_toggle_behavior (v : Variable) :
    (v.var_type ≠ TYPE_BOOLEAN → v.toggle = (v, [])) ∧
    (v.var_type = TYPE_BOOLEAN →
       (v.toggle).1.value = PyVal.bool (!(pyTruthy v.value)) ∧
       (v.toggle).2.length = 1 ∧
       (v.toggle).1.state ≠ v.state) := by
  constructor
  · intro h; simp [Variable.toggle, h]
  · intro h
    refine ⟨by simp [Variable.toggle, h], ?_, ?_⟩
    · cases hpv : pyTruthy v.value <;>
        simp [Variable.toggle, h, Variable.fire_value_changed,
          Variable.format_state, hpv, pyTruthy_bool, STATE_ON, STATE_OFF]
    · cases hpv : pyTruthy v.value <;>
        simp [Variable.toggle, h, Variable.state, hpv, pyTruthy_bool,
          STATE_ON, STATE_OFF]

/-- C10 witness: the toggle theorem evaluated at a String-typed variable
(no-op) and at a Boolean-typed variable (one event). -/
theorem c10_toggle_witness :
    (Variable.init cfgStr).toggle = (Variable.init cfgStr, []) ∧
    ((Variable.init cfgBool).toggle).2.length = 1 := by
  constructor
  · exact (c10_toggle_behavior (Variable.init cfgStr)).1 (by decide)
  · exact ((c10_toggle_behavior (Variable.init cfgBool)).2 (by decide)).2.1

/-- C4 counterexample: on a String-typed variable already holding "x",
setting the same value "x" with no TTL emits zero change events on the
first call, refuting that two identical sets emit exactly one event. -/
theorem c4_counterexample :
    ¬ (((Variable.init cfgStr).set_value sched0 (PyVal.str "x") Option.none
          PyVal.none DEFAULT_EXPIRE_ACTION Option.none 0).2.2.length = 1) := by
  decide

/-- C4 (amended): two set_value calls with the same raw value and no TTL
leave a final state and scheduler identical to one call; the second call
emits no event; and the first call emits exactly one event when the
display state changes and none otherwise — events fire only on actual
display-state transitions. -/
theorem c4_set_value_idempotent (v : Variable) (s : Sched) (val : PyVal)
    (now1 now2 : Nat) :
    ((v.set_value s val Option.none PyVal.none DEFAULT_EXPIRE_ACTION
        Option.none now1).1.set_value
      (v.set_value s val Option.none PyVal.none DEFAULT_EXPIRE_ACTION
        Option.none now1).2.1 val Option.none PyVal.none
      DEFAULT_EXPIRE_ACTION Option.none now2).1
      = (v.set_value s val Option.none PyVal.none DEFAULT_EXPIRE_ACTION
          Option.none now1).1 ∧
    ((v.set_value s val Option.none PyVal.none DEFAULT_EXPIRE_ACTION
        Option.none now1).1.set_value
      (v.set_value s val Option.none PyVal.none DEFAULT_EXPIRE_ACTION
        Option.none now1).2.1 val Option.none PyVal.none
      DEFAULT_EXPIRE_ACTION Option.none now2).2.1
      = (v.set_value s val Option.none PyVal.none DEFAULT_EXPIRE_ACTION
          Option.none now1).2.1 ∧
    ((v.set_value s val Option.none PyVal.none DEFAULT_EXPIRE_ACTION
        Option.none now1).1.set_value
      (v.set_value s val Option.none PyVal.none DEFAULT_EXPIRE_ACTION
        Option.none now1).2.1 val Option.none PyVal.none
      DEFAULT_EXPIRE_ACTION Option.none now2).2.2 = [] ∧
    (v.set_value s val Option.none PyVal.none DEFAULT_EXPIRE_ACTION
        Option.none now1).2.2.length
      = (if v.format_state v.value = v.format_state (coerce v.var_type val)
         then 0 else 1) := by
  refine ⟨?_, ?_, ?_, ?_⟩
  · cases hu : v.ttl_unsub <;>
      simp [Variable.set_value, Variable.cancel_ttl, Variable.fire_value_changed,
        Variable.format_state, hu]
  · cases hu : v.ttl_unsub <;>
      simp [Variable.set_value, Variable.cancel_ttl, Variable.fire_value_changed,
        Variable.format_state, hu]
  · cases hu : v.ttl_unsub <;>
      simp [Variable.set_value, Variable.cancel_ttl, Variable.fire_value_changed,
        Variable.format_state, hu]
  · cases hu : v.ttl_unsub <;>
      simp [Variable.set_value, Variable.cancel_ttl, Variable.fire_value_changed,
        Variable.format_state, hu] <;>
      (repeat' split) <;> simp




/-- C5 counterexample: updating a stored number-typed variable (value 5,
attributes {a: 1}) with a dict carrying only the name resets value, type
and attributes to the schema defaults instead of retaining them, and
async_update_config replaces the attributes dict instead of merging it. -/
theorem c5_counterexample :
    ((update_data cfgNum5 updOnlyName).map (fun c => c.value)
        ≠ some (some (PyVal.int 5))) ∧
    ((update_data cfgNum5 updOnlyName).map (fun c => c.var_type)
        ≠ some (some TYPE_NUMBER)) ∧
    ((update_data cfgNum5 updOnlyName).map (fun c => c.attributes)
        ≠ some (some [("a", PyVal.int 1)])) ∧
    (((Variable.init cfgNum5).update_config cfgAttrB).1.attributes
        ≠ dictUpdate (Variable.init cfgNum5).attributes [("b", PyVal.int 2)]) := by
  decide

/-- Shape of every dict accepted by CREATE_UPDATE_SCHEMA: name kept,
defaults inserted for absent value/var_type/attributes, icon passed
through. -/
theorem create_update_schema_shape (upd w : VarConfig)
    (h : create_update_schema upd = some w) :
    ∃ n, upd.name = some n ∧
      w = { id := Option.none, name := some n,
            value := some (upd.value.getD (.str "")),
            var_type := some (upd.var_type.getD DEFAULT_TYPE),
            icon := upd.icon,
            attributes := some (upd.attributes.getD []) } := by
  unfold create_update_schema at h
  cases hm : upd.name with
  | none => rw [hm] at h; simp at h
  | some n =>
      rw [hm] at h
      repeat' split at h
      all_goals simp_all

/-- C5 (amended): _update_data merges the validated update over the
stored item, but the validation inserts defaults for absent keys, so
value, type and attributes always come from the update dict (their
defaults "", string and {} when absent) while only icon and the id are
retained from the stored item when absent; and when the merged config
reaches async_update_config carrying attributes, they replace — not merge
into — the variable's attributes dict. -/
theorem c5_update_semantics (item upd r : VarConfig)
    (h : update_data item upd = some r) :
    r.id = item.id ∧
    r.name = upd.name ∧
    r.value = some (upd.value.getD (.str "")) ∧
    r.var_type = some (upd.var_type.getD DEFAULT_TYPE) ∧
    r.attributes = some (upd.attributes.getD []) ∧
    r.icon = upd.icon.orElse (fun _ => item.icon) ∧
    (∀ (v : Variable) (attrs : AttrMap),
       r.attributes = some attrs → (v.update_config r).1.attributes = attrs) := by
  unfold update_data at h
  cases hs : create_update_schema upd with
  | none => rw [hs] at h; simp at h
  | some w =>
      rw [hs] at h
      simp only [Option.map_some', Option.some.injEq] at h
      obtain ⟨n, hm, hw⟩ := create_update_schema_shape upd w hs
      subst hw
      subst h
      rw [hm]
      refine ⟨?_, ?_, ?_, ?_, ?_, ?_, ?_⟩ <;>
        simp [mergeConfig, Variable.update_config, Option.orElse]


/-- C5 witness: the update-merge theorem evaluated on the concrete stored
item cfgNum5 and the name-only update. -/
theorem c5_witness :
    (update_data cfgNum5 updOnlyName = some rC) ∧
    rC.value = some (PyVal.str "") ∧ rC.icon = some "mdi:n" := by
  refine ⟨by decide, ?_, ?_⟩
  · exact (c5_update_semantics cfgNum5 updOnlyName rC (by decide)).2.2.1
  · have h := (c5_update_semantics cfgNum5 updOnlyName rC (by decide)).2.2.2.2.2.1
    rw [h]; decide

/-- Deleting a snapshot list of ids one by one from the store equals
filtering out every entry whose id is in the list. -/
theorem foldl_delete_eq_filter (L : List String) (store : Store) :
    L.foldl (fun acc i => store_delete_item acc i) store
      = store.filter (fun p => !(L.contains p.1)) := by
  induction L generalizing store with
  | nil => simp
  | cons i is ih =>
      rw [List.foldl_cons, ih]
      simp only [store_delete_item, List.filter_filter]
      refine List.filter_congr (fun a _ => ?_)
      cases h1 : a.1 == i <;> cases h2 : is.contains a.1 <;>
        simp_all [List.contains, List.elem_cons]

/-- C8: delete_prefix slugifies the prefix; an empty slug is rejected
with the store untouched; otherwise exactly the ids starting with the
slug are deleted (non-matching entries survive unchanged) and the
reported count is the number of matching ids. -/
theorem c8_delete_matching_ids (store : Store) (raw : String) :
    (slugify raw = "" →
       ( async_handle_delete_prefix store raw) = (store, Option.none)) ∧
    (slugify raw ≠ "" →
       ( async_handle_delete_prefix store raw).1
         = store.filter (fun p => !(strStartsWith (slugify raw) p.1)) ∧
       ( async_handle_delete_prefix store raw).2
         = some (((store.map (fun p => p.1)).filter
             (fun i => strStartsWith (slugify raw) i)).length)) := by
  constructor
  · intro h
    simp [ async_handle_delete_prefix, h]
  · intro h
    by_cases hz : ((store.map (fun p => p.1)).filter
        (fun i => strStartsWith (slugify raw) i)) = []
    · have hall := List.filter_eq_nil_iff.mp hz
      constructor
      · simp only [ async_handle_delete_prefix, h, if_neg, hz, if_pos]
        refine (List.filter_eq_self.mpr fun p hp => ?_).symm
        have hx := hall p.1 (List.mem_map.mpr ⟨p, hp, rfl⟩)
        simp_all
      · simp [ async_handle_delete_prefix, h, hz]
    · constructor
      · simp only [ async_handle_delete_prefix, h, if_neg, hz, if_false]
        rw [foldl_delete_eq_filter]
        refine List.filter_congr (fun p hp => ?_)
        have hmem : p.1 ∈ store.map (fun q => q.1) :=
          List.mem_map.mpr ⟨p, hp, rfl⟩
        by_cases hpred : strStartsWith (slugify raw) p.1 = true
        · have hin : p.1 ∈ (store.map (fun q => q.1)).filter
              (fun i => strStartsWith (slugify raw) i) :=
            List.mem_filter.mpr ⟨hmem, hpred⟩
          simp [List.contains, List.elem_iff.mpr hin, hpred]
          exact ⟨p.2, hp⟩
        · have hnin : p.1 ∉ (store.map (fun q => q.1)).filter
              (fun i => strStartsWith (slugify raw) i) :=
            fun hmem2 => hpred (List.mem_filter.mp hmem2).2
          have hc : ((store.map (fun q => q.1)).filter
              (fun i => strStartsWith (slugify raw) i)).elem p.1 = false := by
            cases hcc : ((store.map (fun q => q.1)).filter
                (fun i => strStartsWith (slugify raw) i)).elem p.1
            · rfl
            · exact absurd (List.elem_iff.mp hcc) hnin
          simp_all [List.contains]
      · simp [ async_handle_delete_prefix, h, hz]

/-- C8 witness: the scenario with kitchen_light, kitchen_fan and
garage_door — delete_prefix("kitchen_") deletes the first two, leaves
garage_door, and reports count 2. -/
theorem c8_scenario_witness :
    slugify "kitchen_" ≠ "" ∧
    ( async_handle_delete_prefix storeKitchen "kitchen_").2 = some 2 ∧
    ( async_handle_delete_prefix storeKitchen "kitchen_").1
      = [("garage_door", cfgPlain "garage_door")] := by
  have h := (c8_delete_matching_ids storeKitchen "kitchen_").2 (by decide)
  refine ⟨by decide, ?_, ?_⟩
  · rw [h.2]; decide
  · rw [h.1]; decide

/-- After the expiry callback runs, the handle and expiry timestamp are
cleared on every path. -/
theorem ttl_expired_unsub (v : Variable) (store : Store) :
    (v.ttl_expired store).1.ttl_unsub = Option.none ∧
    (v.ttl_expired store).1.expires_at = Option.none := by
  unfold Variable.ttl_expired
  dsimp only
  repeat' split
  all_goals exact ⟨rfl, rfl⟩

/-- Arming from a single-armed-TTL state: the previous timer is cancelled
and the scheduler ends up holding exactly the fresh timer. -/
theorem arm_state (v : Variable) (s : Sched) (t : Nat) (e : PyVal)
    (a : String) (n : Nat) (hinv : TtlInv v s) :
    (v.apply_ttl s t e a n).1.ttl_unsub = some s.nextId ∧
    (v.apply_ttl s t e a n).1.expires_at = some (n + t) ∧
    (v.apply_ttl s t e a n).2.pending = [(s.nextId, n + t)] ∧
    (v.apply_ttl s t e a n).2.nextId = s.nextId + 1 := by
  cases hu : v.ttl_unsub with
  | none =>
      have hp : s.pending = [] := by simpa [TtlInv, hu] using hinv
      simp [Variable.apply_ttl, hu, Sched.track, hp]
  | some tok =>
      obtain ⟨t0, hp, he⟩ :
          ∃ t0, s.pending = [(tok, t0)] ∧ v.expires_at = some t0 := by
        simpa [TtlInv, hu] using hinv
      simp [Variable.apply_ttl, hu, Sched.unsub, Sched.track, hp]

/-- apply_ttl preserves the single-armed-TTL invariant. -/
theorem arm_inv (v : Variable) (s : Sched) (t : Nat) (e : PyVal)
    (a : String) (n : Nat) (hinv : TtlInv v s) :
    TtlInv (v.apply_ttl s t e a n).1 (v.apply_ttl s t e a n).2 := by
  obtain ⟨h1, h2, h3, h4⟩ := arm_state v s t e a n hinv
  simp only [TtlInv, h1, h2, h3]
  exact ⟨n + t, rfl, rfl⟩

/-- Cancelling from a single-armed-TTL state leaves no handle and no
pending timer. -/
theorem cancel_state (v : Variable) (s : Sched) (hinv : TtlInv v s) :
    (v.cancel_ttl s).1.ttl_unsub = Option.none ∧
    (v.cancel_ttl s).2.pending = [] := by
  cases hu : v.ttl_unsub with
  | none =>
      have hp : s.pending = [] := by simpa [TtlInv, hu] using hinv
      simp [Variable.cancel_ttl, hu, hp]
  | some tok =>
      obtain ⟨t0, hp, he⟩ :
          ∃ t0, s.pending = [(tok, t0)] ∧ v.expires_at = some t0 := by
        simpa [TtlInv, hu] using hinv
      simp [Variable.cancel_ttl, hu, Sched.unsub, hp]

/-- _cancel_ttl preserves the single-armed-TTL invariant. -/
theorem cancel_inv (v : Variable) (s : Sched) (hinv : TtlInv v s) :
    TtlInv (v.cancel_ttl s).1 (v.cancel_ttl s).2 := by
  obtain ⟨h1, h2⟩ := cancel_state v s hinv
  simp [TtlInv, h1, h2]

/-- A TTL firing preserves the single-armed-TTL invariant. -/
theorem fire_inv (v : Variable) (s : Sched) (store : Store)
    (hinv : TtlInv v s) :
    TtlInv (fireTtl v s store).1 (fireTtl v s store).2.1 := by
  cases hu : v.ttl_unsub with
  | none =>
      have hp : s.pending = [] := by simpa [TtlInv, hu] using hinv
      simp [fireTtl, hu, TtlInv, hp]
  | some tok =>
      obtain ⟨t0, hp, he⟩ :
          ∃ t0, s.pending = [(tok, t0)] ∧ v.expires_at = some t0 := by
        simpa [TtlInv, hu] using hinv
      have hun := (ttl_expired_unsub v store).1
      simp [fireTtl, hu, TtlInv, Sched.unsub, hp, hun]

/-- async_set_value preserves the single-armed-TTL invariant. -/
theorem set_value_inv (v : Variable) (s : Sched) (val : PyVal)
    (ttl : Option Nat) (eto : PyVal) (ea : String) (attrs : Option AttrMap)
    (now : Nat) (hinv : TtlInv v s) :
    TtlInv (v.set_value s val ttl eto ea attrs now).1
      (v.set_value s val ttl eto ea attrs now).2.1 := by
  cases attrs <;> cases ttl <;>
    simp only [Variable.set_value] <;>
    first
      | exact cancel_inv _ _ hinv
      | exact arm_inv _ _ _ _ _ _ hinv

/-- C2: from any single-armed-TTL state, arming twice in succession
leaves exactly one pending expiry record — the second arm's token and
time — and apply_ttl, _cancel_ttl, async_set_value and a TTL firing each
preserve the at-most-one-armed-TTL invariant. -/
theorem c2_single_armed_ttl (v : Variable) (s : Sched) (hinv : TtlInv v s)
    (t1 t2 : Nat) (e1 e2 : PyVal) (a1 a2 : String) (n1 n2 : Nat)
    (val : PyVal) (ttl : Option Nat) (eto : PyVal) (ea : String)
    (attrs : Option AttrMap) (now : Nat) (store : Store) :
    (((v.apply_ttl s t1 e1 a1 n1).1.apply_ttl (v.apply_ttl s t1 e1 a1 n1).2
        t2 e2 a2 n2).2.pending
      = [((v.apply_ttl s t1 e1 a1 n1).2.nextId, n2 + t2)] ∧
     ((v.apply_ttl s t1 e1 a1 n1).1.apply_ttl (v.apply_ttl s t1 e1 a1 n1).2
        t2 e2 a2 n2).1.ttl_unsub
      = some ((v.apply_ttl s t1 e1 a1 n1).2.nextId) ∧
     ((v.apply_ttl s t1 e1 a1 n1).1.apply_ttl (v.apply_ttl s t1 e1 a1 n1).2
        t2 e2 a2 n2).1.expires_at = some (n2 + t2)) ∧
    TtlInv (v.apply_ttl s t1 e1 a1 n1).1 (v.apply_ttl s t1 e1 a1 n1).2 ∧
    TtlInv (v.cancel_ttl s).1 (v.cancel_ttl s).2 ∧
    TtlInv (v.set_value s val ttl eto ea attrs now).1
      (v.set_value s val ttl eto ea attrs now).2.1 ∧
    TtlInv (fireTtl v s store).1 (fireTtl v s store).2.1 := by
  have harm := arm_inv v s t1 e1 a1 n1 hinv
  have harm2 := arm_state (v.apply_ttl s t1 e1 a1 n1).1
    (v.apply_ttl s t1 e1 a1 n1).2 t2 e2 a2 n2 harm
  exact ⟨⟨harm2.2.2.1, harm2.1, harm2.2.1⟩, harm, cancel_inv v s hinv,
    set_value_inv v s val ttl eto ea attrs now hinv,
    fire_inv v s store hinv⟩

/-- C2 witness: arming twice on a freshly initialized variable leaves the
scheduler with exactly the second arm's timer. -/
theorem c2_witness :
    (((Variable.init cfgBool).apply_ttl sched0 5 PyVal.none
        EXPIRE_ACTION_RESET 0).1.apply_ttl
      ((Variable.init cfgBool).apply_ttl sched0 5 PyVal.none
        EXPIRE_ACTION_RESET 0).2 9 PyVal.none EXPIRE_ACTION_RESET 3).2.pending
      = [(1, 12)] := by
  have h := c2_single_armed_ttl (Variable.init cfgBool) sched0 rfl
    5 9 PyVal.none PyVal.none EXPIRE_ACTION_RESET EXPIRE_ACTION_RESET 0 3
    PyVal.none Option.none PyVal.none EXPIRE_ACTION_RESET Option.none 0 []
  rw [h.1.1]; decide

/-- C7: entity-removal teardown cancels any armed TTL: afterwards no
timer is pending, no handle is retained, and firing is a no-op that
touches neither the variable, the store, nor the event bus. -/
theorem c7_delete_cancels_ttl (v : Variable) (s : Sched) (store : Store)
    (hinv : TtlInv v s) :
    (v.will_remove_from_hass s).2.pending = [] ∧
    (v.will_remove_from_hass s).1.ttl_unsub = Option.none ∧
    fireTtl (v.will_remove_from_hass s).1 (v.will_remove_from_hass s).2 store
      = ((v.will_remove_from_hass s).1, (v.will_remove_from_hass s).2,
         store, []) := by
  obtain ⟨h1, h2⟩ := cancel_state v s hinv
  refine ⟨h2, h1, ?_⟩
  simp [fireTtl, Variable.will_remove_from_hass, h1]

/-- C7 witness: teardown of a variable with a live 60-second TTL leaves
the scheduler empty. -/
theorem c7_witness :
    ((((Variable.init cfgBool).apply_ttl sched0 60 PyVal.none
        EXPIRE_ACTION_RESET 0).1.will_remove_from_hass
      ((Variable.init cfgBool).apply_ttl sched0 60 PyVal.none
        EXPIRE_ACTION_RESET 0).2).2.pending = []) := by
  have h := c7_delete_cancels_ttl
    ((Variable.init cfgBool).apply_ttl sched0 60 PyVal.none
      EXPIRE_ACTION_RESET 0).1
    ((Variable.init cfgBool).apply_ttl sched0 60 PyVal.none
      EXPIRE_ACTION_RESET 0).2
    [] ⟨60, rfl, rfl⟩
  exact h.1

/-- Number-coercion of a string never yields the absence-marker. -/
theorem coerceNumberStr_ne_none (s : String) :
    coerceNumberStr s ≠ PyVal.none := by
  unfold coerceNumberStr
  by_cases hd : s.data.contains '.'
  · simp only [hd, if_true]
    cases hf : pyFloatOfString s <;> simp
  · simp only [hd, Bool.false_eq_true, if_false]
    cases hi : pyIntOfString s
    · cases hf : pyFloatOfString s <;> simp
    · simp

/-- Coercion maps non-absent values to non-absent values. -/
theorem coerce_ne_none (t : String) (w : PyVal) (h : w ≠ PyVal.none) :
    coerce t w ≠ PyVal.none := by
  unfold coerce
  rw [if_neg h]
  split
  · cases w <;> simp
  · split
    · cases w with
      | str s => exact coerceNumberStr_ne_none s
      | none => exact absurd rfl h
      | bool b => simp
      | int n => simp
      | float q => simp
    · simp

/-- The per-type default expiry value is never the absence-marker. -/
theorem default_expire_ne_none (v : Variable) :
    v.default_expire_value ≠ PyVal.none := by
  unfold Variable.default_expire_value
  repeat' split <;> simp

/-- C3: when a TTL armed with the Delete action fires, the variable's
value is untouched, no change event is emitted, and its id is removed
from the owning store; when armed with Reset, the value becomes the
expire-to value resolved at arm time (coerced when given, the type
default otherwise), the store is untouched, and a change event is emitted
exactly when the display state changed. -/
theorem c3_ttl_fire_semantics (v : Variable) (s : Sched) (store : Store)
    (ttl : Nat) (eto : PyVal) (now : Nat) (uid : String)
    (hid : v.config.id = some uid) :
    (((v.apply_ttl s ttl eto EXPIRE_ACTION_DELETE now).1.ttl_expired store).1.value
        = v.value ∧
     ((v.apply_ttl s ttl eto EXPIRE_ACTION_DELETE now).1.ttl_expired store).2.2
        = [] ∧
     ((v.apply_ttl s ttl eto EXPIRE_ACTION_DELETE now).1.ttl_expired store).2.1
        = store_delete_item store uid) ∧
    (((v.apply_ttl s ttl eto EXPIRE_ACTION_RESET now).1.ttl_expired store).1.value
        = (if eto = PyVal.none then v.default_expire_value
           else coerce v.var_type eto) ∧
     ((v.apply_ttl s ttl eto EXPIRE_ACTION_RESET now).1.ttl_expired store).2.1
        = store ∧
     (((v.apply_ttl s ttl eto EXPIRE_ACTION_RESET now).1.ttl_expired store).2.2
        ≠ []
      ↔ v.format_state v.value
          ≠ v.format_state (if eto = PyVal.none then v.default_expire_value
                            else coerce v.var_type eto))) := by
  constructor
  · cases hu : v.ttl_unsub
    all_goals
      simp only [Variable.apply_ttl, Variable.ttl_expired, hu]
      rw [if_true]
      simp only [hid]
      by_cases hany : store.any (fun p => p.1 == uid)
      · simp [hany]
      · have hall := List.any_eq_false.mp ((Bool.not_eq_true _).mp hany)
        simp only [hany, Bool.false_eq_true, if_false]
        refine ⟨by trivial, by trivial, ?_⟩
        unfold store_delete_item
        refine (List.filter_eq_self.mpr fun p hp => ?_).symm
        have hpe : (p.1 == uid) = false :=
          (Bool.not_eq_true _).mp (hall p hp)
        exact bne_iff_ne.mpr (beq_eq_false_iff_ne.mp hpe)
  · cases hu : v.ttl_unsub
    all_goals
      simp only [Variable.apply_ttl, Variable.ttl_expired, hu]
      rw [if_neg (by decide : ¬(EXPIRE_ACTION_RESET = EXPIRE_ACTION_DELETE))]
      by_cases he : eto = PyVal.none
      · simp only [he, ne_eq, not_true_eq_false, if_false, if_pos]
        rw [if_pos (default_expire_ne_none v)]
        refine ⟨by trivial, by trivial, ?_⟩
        simp only [Variable.fire_value_changed, Variable.format_state]
        dsimp only
        split <;> simp_all
      · simp only [he, ne_eq, not_false_eq_true, if_true, if_neg]
        rw [if_pos (coerce_ne_none v.var_type eto he)]
        refine ⟨by trivial, by trivial, ?_⟩
        simp only [Variable.fire_value_changed, Variable.format_state]
        dsimp only
        split <;> simp_all

/-- C3 witness: a delete-armed TTL firing empties the one-entry store,
and a reset-armed TTL with expire_to "on" resets a boolean variable to
true. -/
theorem c3_witness :
    (((Variable.init cfgBool).apply_ttl sched0 60 PyVal.none
        EXPIRE_ACTION_DELETE 0).1.ttl_expired
      [("flag", cfgBool)]).2.1 = [] ∧
    (((Variable.init cfgBool).apply_ttl sched0 60 (PyVal.str "on")
        EXPIRE_ACTION_RESET 0).1.ttl_expired
      [("flag", cfgBool)]).1.value = PyVal.bool true := by
  have h1 := c3_ttl_fire_semantics (Variable.init cfgBool) sched0
    [("flag", cfgBool)] 60 PyVal.none 0 "flag" rfl
  have h2 := c3_ttl_fire_semantics (Variable.init cfgBool) sched0
    [("flag", cfgBool)] 60 (PyVal.str "on") 0 "flag" rfl
  constructor
  · rw [h1.1.2.2]; decide
  · rw [h2.2.1]; decide
